import Mathlib

/-!
Shallow embedding of the connection-lifecycle and graceful-drain subsystem of
the ws-haproxy-ingress-graceful-shutdown repository.

The repository contains two Go variants of the connection manager:
* package `connmanager` (slice-backed registry, `CloseFirstNConnections`,
  `CloseAllConnections`), embedded below in namespace `connmanager`;
* package `conn_manager` (map-backed registry), embedded in namespace
  `conn_manager`.
Connections are modelled by their identity (a natural number); a `none` entry
models a nil `*websocket.Conn` slice slot.  Go runtime panics (close of a
closed channel, nil-pointer dereference, out-of-range slicing, `make` with a
negative length) are modelled by the `Except GoPanic` monad.  Locks are elided:
each operation is embedded as the sequential state transformation its body
performs.  The concurrent environment of the post-drain wait loop (ticker
reads of the registry count racing with context cancellation) is modelled by
an explicit trace of tick events.
-/

namespace GoNodeWS

/-- Connection identity: stands for one `*websocket.Conn` handle. -/
abbrev Conn := Nat

/-- Go runtime panics reachable in the embedded code. -/
inductive GoPanic
  | closeOfClosedChannel
  | nilPointerDereference
  | sliceBoundsOutOfRange
  | makeNegativeLen
  deriving DecidableEq

/-- Observable transport side effects of a drain on one connection:
`closeMsgSent c` is `WriteMessage(CloseMessage, FormatCloseMessage(CloseGoingAway,
"Server shutting down"))`; `transportClosed c` is `conn.Close()`. -/
inductive Event
  | closeMsgSent (c : Conn)
  | transportClosed (c : Conn)
  deriving DecidableEq

/-- One firing of the wait-loop `select`: either `ctx.Done()` fires, or the
100 ms ticker fires and the loop reads the current registry length (that read
is the only window into the concurrently mutated registry). -/
inductive TickEvent
  | cancel
  | observe (count : Nat)
  deriving DecidableEq

/-- How the post-drain wait loop returned. -/
inductive WaitOutcome
  | cancelled
  | timedOut
  | drained
  deriving DecidableEq

/-- The wait loop of `CloseAllConnections`: poll until the registry is observed
empty, the 5 s timer fires (at most 50 ticks of 100 ms, the fuel), or the
context is cancelled.  An exhausted trace means the next `select` is won by the
timeout case. -/
def waitForEmpty : Nat → List TickEvent → WaitOutcome
  | 0, _ => .timedOut
  | _ + 1, [] => .timedOut
  | _ + 1, .cancel :: _ => .cancelled
  | fuel + 1, .observe c :: rest =>
      if c = 0 then .drained else waitForEmpty fuel rest

namespace connmanager

/-- Slice-backed manager: `connections []*websocket.Conn` plus the `Shutdown`
channel, represented by whether it has been closed. -/
structure ConnectionManager where
  connections : List (Option Conn)
  shutdownClosed : Bool
  deriving DecidableEq

/-- `NewConnectionManager`: `make([]*websocket.Conn, 100)` allocates a slice of
LENGTH 100 (all nil), not capacity 100; the fresh `Shutdown` channel is open. -/
def NewConnectionManager : ConnectionManager :=
  { connections := List.replicate 100 none, shutdownClosed := false }

/-- `AddConnection`: appends unconditionally (no duplicate check). -/
def AddConnection (c : Conn) (cm : ConnectionManager) : ConnectionManager :=
  { cm with connections := cm.connections ++ [some c] }

/-- `RemoveConnection(index)`: `slices.Delete(cm.connections, index, index+1)`,
which panics when `index+1 > len(cm.connections)`. -/
def RemoveConnection (i : Nat) (cm : ConnectionManager) :
    Except GoPanic ConnectionManager :=
  if i + 1 ≤ cm.connections.length then
    .ok { cm with connections := cm.connections.eraseIdx i }
  else
    .error .sliceBoundsOutOfRange

/-- Go `copy(dst, src)`: writes `min |dst| |src|` elements of `src` over the
prefix of `dst`, keeping the rest of `dst`. -/
def goCopy (dst src : List (Option Conn)) : List (Option Conn) :=
  src.take dst.length ++ dst.drop (min dst.length src.length)

/-- `GetFirstNConnections(n)`: `connections := make([]*websocket.Conn, n)` then
`copy(connections, cm.connections[:min(n, len(cm.connections))])` — the result
always has length `n`, nil-padded when `n` exceeds the registry length. -/
def GetFirstNConnections (n : Nat) (cm : ConnectionManager) : List (Option Conn) :=
  goCopy (List.replicate n none) (cm.connections.take (min n cm.connections.length))

/-- `GetConnectionsCount`: `len(cm.connections)`. -/
def GetConnectionsCount (cm : ConnectionManager) : Nat :=
  cm.connections.length

/-- Body of the loop of `CloseFirstNConnections`: for each snapshot entry,
send the going-away close message (nil-pointer panic on a nil entry; a write
or close error on a live connection is logged and the loop continues), close
the transport, then `RemoveConnection(i)` with `i` the SNAPSHOT index. -/
def closeConnLoop : List (Option Conn) → Nat → ConnectionManager → List Event →
    Except GoPanic (ConnectionManager × List Event)
  | [], _, cm, evs => .ok (cm, evs)
  | oc :: rest, i, cm, evs =>
    match oc with
    | none => .error .nilPointerDereference
    | some c =>
      match RemoveConnection i cm with
      | .error p => .error p
      | .ok cmNext =>
          closeConnLoop rest (i + 1) cmNext
            (evs ++ [Event.closeMsgSent c, Event.transportClosed c])

/-- `CloseFirstNConnections(n)`: snapshot the first `n` entries, then close and
remove each by its snapshot index.  The `Shutdown` channel is never touched. -/
def CloseFirstNConnections (n : Nat) (cm : ConnectionManager) :
    Except GoPanic (ConnectionManager × List Event) :=
  closeConnLoop (GetFirstNConnections n cm) 0 cm []

/-- View of the slice `cm.connections` inside the loop of
`CloseAllConnections`: `arr` is the underlying array contents (its length is
the length the slice had when the `range` header was captured, and it is
mutated in place by `slices.Delete`), `len` is the current logical length of
`cm.connections`. -/
structure SliceView where
  arr : List (Option Conn)
  len : Nat
  deriving DecidableEq

/-- `slices.Delete(cm.connections, i, i+1)` seen through the view: shifts the
logical elements after `i` left and zeroes the vacated slot (Go 1.22+
semantics); panics when `i + 1 > len`. -/
def deleteAt (v : SliceView) (i : Nat) : Except GoPanic SliceView :=
  if i + 1 ≤ v.len then
    .ok ⟨(v.arr.take v.len).eraseIdx i ++ [none] ++ v.arr.drop v.len, v.len - 1⟩
  else
    .error .sliceBoundsOutOfRange

/-- The close loop of the slice variant of `CloseAllConnections`:
`for i, conn := range cm.connections` captures the slice header once (length
`L`, first argument counts the remaining iterations), so each iteration reads
slot `i` of the UNDERLYING ARRAY even after `RemoveConnection` has shifted it;
then sends the going-away close message (nil-pointer panic on a nil slot),
closes the transport, and calls `RemoveConnection(i)`. -/
def closeAllLoop : Nat → Nat → SliceView → List Event →
    Except GoPanic (SliceView × List Event)
  | 0, _, v, evs => .ok (v, evs)
  | remaining + 1, i, v, evs =>
    match v.arr.get? i with
    | none => .error .sliceBoundsOutOfRange
    | some none => .error .nilPointerDereference
    | some (some c) =>
      match deleteAt v i with
      | .error p => .error p
      | .ok vNext =>
          closeAllLoop remaining (i + 1) vNext
            (evs ++ [Event.closeMsgSent c, Event.transportClosed c])

/-- Slice variant of `CloseAllConnections(ctx)`: `close(cm.Shutdown)` —
a panic if the channel is already closed — then the close-and-remove loop over
the captured slice header, then the bounded wait for the registry to be
observed empty.  The tick trace stands for the concurrent environment seen by
the wait loop. -/
def CloseAllConnections (cm : ConnectionManager) (ticks : List TickEvent) :
    Except GoPanic (ConnectionManager × List Event × WaitOutcome) :=
  if cm.shutdownClosed then
    .error .closeOfClosedChannel
  else
    match closeAllLoop cm.connections.length 0
        ⟨cm.connections, cm.connections.length⟩ [] with
    | .error p => .error p
    | .ok (v, evs) =>
        .ok ({ connections := v.arr.take v.len, shutdownClosed := true },
             evs, waitForEmpty 50 ticks)

end connmanager

namespace conn_manager

/-- Map-backed manager: `connections map[*websocket.Conn]bool` (modelled by its
key set as a duplicate-free list; Go map iteration order is arbitrary, the
list order here is the insertion order) plus the `Shutdown` channel. -/
structure ConnectionManager where
  connections : List Conn
  shutdownClosed : Bool
  deriving DecidableEq

/-- `NewConnectionManager`: empty map, open `Shutdown` channel. -/
def NewConnectionManager : ConnectionManager :=
  { connections := [], shutdownClosed := false }

/-- `AddConnection`: `cm.connections[conn] = true` — map assignment; a present
key keeps the key set unchanged. -/
def AddConnection (c : Conn) (cm : ConnectionManager) : ConnectionManager :=
  if c ∈ cm.connections then cm
  else { cm with connections := cm.connections ++ [c] }

/-- `RemoveConnection`: `delete(cm.connections, conn)` — no-op if absent. -/
def RemoveConnection (c : Conn) (cm : ConnectionManager) : ConnectionManager :=
  { cm with connections := cm.connections.erase c }

/-- `GetConnectionsCount` equivalent: `len(cm.connections)` (read under the
lock inside the wait loop). -/
def GetConnectionsCount (cm : ConnectionManager) : Nat :=
  cm.connections.length

/-- Map variant of `CloseAllConnections(ctx)`: snapshot the keys, then
`close(cm.Shutdown)` — a panic if already closed — then send each snapshot
connection the going-away close message and close it (errors logged, loop
continues; the registry itself is not mutated here — each Session deregisters
itself), then the bounded wait for the registry to be observed empty. -/
def CloseAllConnections (cm : ConnectionManager) (ticks : List TickEvent) :
    Except GoPanic (ConnectionManager × List Event × WaitOutcome) :=
  if cm.shutdownClosed then
    .error .closeOfClosedChannel
  else
    .ok ({ cm with shutdownClosed := true },
         (cm.connections.map fun c => [Event.closeMsgSent c, Event.transportClosed c]).flatten,
         waitForEmpty 50 ticks)

end conn_manager

namespace handlers

/-- Outcome of classifying one inbound message in `wsHandler`. -/
inductive Reply
  | echo (s : String)
  | slowPath
  deriving DecidableEq

/-- The message dispatch of `wsHandler`:
`if string(message) == "SLOW_REQUEST" || string(message)[:9] == "SLOW_PING"`.
The disjunction is short-circuit, so for any other message the byte slice
`string(message)[:9]` is evaluated, and Go panics with a slice-bounds error
whenever the message is shorter than 9 bytes.  Otherwise a non-matching
message is answered with `"Echo: " + string(message)` and the session stays in
its read loop (Idle).  Payloads are modelled as ASCII text, where Go byte
slicing and `String.take` agree. -/
def classifyMessage (msg : String) : Except GoPanic Reply :=
  if msg = "SLOW_REQUEST" then .ok .slowPath
  else if msg.length < 9 then .error .sliceBoundsOutOfRange
  else if msg.take 9 = "SLOW_PING" then .ok .slowPath
  else .ok (.echo ("Echo: " ++ msg))

end handlers

namespace tcp

/-- Accumulate decimal digits; fails on any non-digit. -/
def parseDigits (cs : List Char) : Option Nat :=
  cs.foldl
    (fun acc c =>
      match acc with
      | none => none
      | some v => if c.isDigit then some (v * 10 + (c.toNat - 48)) else none)
    (some 0)

/-- `strconv.Atoi`, i.e. `ParseInt(s, 10, 0)` on a 64-bit platform: optional
single leading sign, at least one digit, base-10 digits only, and the value
must fit in int64 (overflow is `ErrRange`, which the caller treats as a parse
failure). -/
def Atoi (s : String) : Option Int :=
  match s.data with
  | [] => none
  | c :: rest =>
    let signDigits : Bool × List Char :=
      if c = '-' then (true, rest)
      else if c = '+' then (false, rest)
      else (false, c :: rest)
    if signDigits.2 = [] then none
    else
      match parseDigits signDigits.2 with
      | none => none
      | some v =>
        let i : Int := if signDigits.1 then -(v : Int) else (v : Int)
        if -(2 ^ 63 : Int) ≤ i ∧ i ≤ 2 ^ 63 - 1 then some i else none

/-- `GetFirstNConnections` receives a Go `int`; `make([]*websocket.Conn, n)`
panics when `n` is negative, before any copying.  With a nonnegative `n` the
call proceeds as `CloseFirstNConnections`. -/
def CloseNConnectionsInt (n : Int) (cm : connmanager.ConnectionManager) :
    Except GoPanic (connmanager.ConnectionManager × List Event) :=
  if n < 0 then .error .makeNegativeLen
  else connmanager.CloseFirstNConnections n.toNat cm

/-- Result of processing one line in `handleServiceConnection`. -/
inductive LineOutcome
  | skipped
  | acked (response : String) (cm : connmanager.ConnectionManager) (evs : List Event)
  | panicked (p : GoPanic)

/-- One iteration of the scanner loop of `handleServiceConnection`: a line
that `strconv.Atoi` rejects is logged and skipped (`continue`, the peer
connection stays open); a line parsing as integer `n` triggers
`CloseNConnections(n)` and, if that returns, the acknowledgement
`"Closing " + msg + " WS connections"` is written back, with `msg` the
original line text. -/
def handleServiceLine (line : String) (cm : connmanager.ConnectionManager) :
    LineOutcome :=
  match Atoi line with
  | none => .skipped
  | some n =>
    match CloseNConnectionsInt n cm with
    | .error p => .panicked p
    | .ok (cmNext, evs) =>
        .acked ("Closing " ++ line ++ " WS connections") cmNext evs

end tcp

/-- The wait loop returned on a tick whose registry read was 0: the trace is a
prefix of nonzero reads followed by the read of an empty registry. -/
def returnsOnEmptyRead (ticks : List TickEvent) : Prop :=
  ∃ pre rest, ticks = pre ++ TickEvent.observe 0 :: rest ∧
    ∀ e ∈ pre, ∃ c, e = TickEvent.observe c ∧ c ≠ 0

/-- An interleaving of registry operations issued by Sessions and the
coordinator. -/
inductive RegOp
  | add (c : Conn)
  | remove (c : Conn)

/-- Run a sequence of add/remove operations against the map-backed registry. -/
def applyOps : List RegOp → conn_manager.ConnectionManager →
    conn_manager.ConnectionManager
  | [], cm => cm
  | .add c :: ops, cm => applyOps ops (conn_manager.AddConnection c cm)
  | .remove c :: ops, cm => applyOps ops (conn_manager.RemoveConnection c cm)

end GoNodeWS

namespace GoNodeWS

-- Scratch checks of the embedding on concrete states.
example :
    connmanager.CloseFirstNConnections 2
      (connmanager.ConnectionManager.mk [some 1, some 2, some 3] false) =
    .ok (connmanager.ConnectionManager.mk [some 2] false,
      [Event.closeMsgSent 1, Event.transportClosed 1,
       Event.closeMsgSent 2, Event.transportClosed 2]) := rfl

example : connmanager.GetConnectionsCount connmanager.NewConnectionManager = 100 := rfl

example : connmanager.GetFirstNConnections 1
    (connmanager.ConnectionManager.mk [] false) = [none] := rfl

example :
    connmanager.CloseAllConnections
      (connmanager.ConnectionManager.mk [some 5] false) [.observe 0] =
    .ok (connmanager.ConnectionManager.mk [] true,
      [Event.closeMsgSent 5, Event.transportClosed 5], .drained) := rfl

-- range-aliasing: on [c1, c2, c3] the loop reads slot 1 after the first
-- delete shifted c3 there, closes c3, and then hits the zeroed slot 2.
example :
    connmanager.CloseAllConnections
      (connmanager.ConnectionManager.mk [some 1, some 2, some 3] false) [] =
    .error .nilPointerDereference := rfl

example :
    conn_manager.CloseAllConnections
      (conn_manager.ConnectionManager.mk [7] true) [.observe 0] =
    .error .closeOfClosedChannel := rfl

example : handlers.classifyMessage "hello" = .error .sliceBoundsOutOfRange := rfl
example : handlers.classifyMessage "long message" = .ok (.echo "Echo: long message") := rfl
example : handlers.classifyMessage "SLOW_PING 3" = .ok .slowPath := rfl
example : tcp.Atoi "-1" = some (-1) := by decide
example : tcp.Atoi "007" = some 7 := by decide
example : tcp.Atoi "1a" = none := by decide
example : tcp.Atoi "" = none := by decide
example : tcp.Atoi "+" = none := by decide
example : tcp.Atoi "9223372036854775808" = none := by decide
example : tcp.handleServiceLine "abc" connmanager.NewConnectionManager = .skipped := rfl
example :
    tcp.handleServiceLine "-1" connmanager.NewConnectionManager =
    .panicked .makeNegativeLen := rfl
example :
    tcp.handleServiceLine "2"
      (connmanager.ConnectionManager.mk [some 1, some 2, some 3] false) =
    .acked "Closing 2 WS connections"
      (connmanager.ConnectionManager.mk [some 2] false)
      [Event.closeMsgSent 1, Event.transportClosed 1,
       Event.closeMsgSent 2, Event.transportClosed 2] := rfl

/-! ### Supporting lemmas -/

/-- `RemoveConnection` never touches the `Shutdown` channel. -/
theorem RemoveConnection_shutdown {i : Nat} {cm cmNext : connmanager.ConnectionManager}
    (h : connmanager.RemoveConnection i cm = .ok cmNext) :
    cmNext.shutdownClosed = cm.shutdownClosed := by
  unfold connmanager.RemoveConnection at h
  split at h
  · injection h with h
    rw [← h]
  · exact absurd h (by simp)

/-- The close-and-remove loop of `CloseFirstNConnections` never touches the
`Shutdown` channel. -/
theorem closeConnLoop_shutdown :
    ∀ (l : List (Option Conn)) (i : Nat) (cm : connmanager.ConnectionManager)
      (evs : List Event) (cmFin : connmanager.ConnectionManager) (evsFin : List Event),
      connmanager.closeConnLoop l i cm evs = .ok (cmFin, evsFin) →
      cmFin.shutdownClosed = cm.shutdownClosed := by
  intro l
  induction l with
  | nil =>
    intro i cm evs cmFin evsFin h
    unfold connmanager.closeConnLoop at h
    injection h with h
    rw [Prod.mk.injEq] at h
    rw [← h.1]
  | cons oc rest ih =>
    intro i cm evs cmFin evsFin h
    unfold connmanager.closeConnLoop at h
    match oc with
    | none => exact absurd h (by simp)
    | some c =>
      simp only at h
      cases hR : connmanager.RemoveConnection i cm with
      | error p => rw [hR] at h; exact absurd h (by simp)
      | ok cmNext =>
        rw [hR] at h
        have := ih (i + 1) cmNext (evs ++ [Event.closeMsgSent c, Event.transportClosed c])
          cmFin evsFin h
        rw [this, RemoveConnection_shutdown hR]

/-- The wait loop returns `drained` only on observing an empty registry. -/
theorem waitForEmpty_drained :
    ∀ (fuel : Nat) (ticks : List TickEvent),
      waitForEmpty fuel ticks = .drained → returnsOnEmptyRead ticks := by
  intro fuel
  induction fuel with
  | zero => intro ticks h; exact absurd h (by simp [waitForEmpty])
  | succ f ih =>
    intro ticks h
    match ticks with
    | [] => exact absurd h (by simp [waitForEmpty])
    | .cancel :: rest => exact absurd h (by simp [waitForEmpty])
    | .observe c :: rest =>
      rw [waitForEmpty] at h
      by_cases hc : c = 0
      · subst hc
        exact ⟨[], rest, rfl, by simp⟩
      · rw [if_neg hc] at h
        obtain ⟨pre, tl, heq, hall⟩ := ih rest h
        refine ⟨.observe c :: pre, tl, by simp [heq], ?_⟩
        intro e he
        rcases List.mem_cons.mp he with h1 | h1
        · exact ⟨c, h1, hc⟩
        · exact hall e h1

/-- `AddConnection` on the map-backed registry keeps the key set
duplicate-free. -/
theorem map_add_nodup {c : Conn} {cm : conn_manager.ConnectionManager}
    (h : cm.connections.Nodup) :
    (conn_manager.AddConnection c cm).connections.Nodup := by
  unfold conn_manager.AddConnection
  split
  · exact h
  · next hmem => simpa [List.nodup_append] using ⟨h, hmem⟩

/-- Any interleaving of add/remove operations keeps the map-backed registry
duplicate-free. -/
theorem map_registry_nodup :
    ∀ (ops : List RegOp) (cm : conn_manager.ConnectionManager),
      cm.connections.Nodup → (applyOps ops cm).connections.Nodup := by
  intro ops
  induction ops with
  | nil => intro cm h; exact h
  | cons op rest ih =>
    intro cm h
    match op with
    | .add c => exact ih _ (map_add_nodup h)
    | .remove c => exact ih _ (List.Nodup.erase c h)

/-! ### Claim theorems -/

/-- C1: a second shutdown broadcast is NOT a guarded no-op — in both variants
`CloseAllConnections` runs `close(cm.Shutdown)` unconditionally, and closing an
already-closed channel is a Go runtime panic, for every state in which the
signal is already raised. -/
theorem shutdown_rebroadcast_panics :
    ∀ (m1 : conn_manager.ConnectionManager) (t1 : List TickEvent)
      (m2 : connmanager.ConnectionManager) (t2 : List TickEvent),
      m1.shutdownClosed = true → m2.shutdownClosed = true →
      conn_manager.CloseAllConnections m1 t1 = .error .closeOfClosedChannel ∧
      connmanager.CloseAllConnections m2 t2 = .error .closeOfClosedChannel := by
  intro m1 t1 m2 t2 h1 h2
  constructor
  · simp [conn_manager.CloseAllConnections, h1]
  · simp [connmanager.CloseAllConnections, h2]

/-- Witness for C1 at concrete already-shut-down managers. -/
theorem shutdown_rebroadcast_panics_witness :
    conn_manager.CloseAllConnections (conn_manager.ConnectionManager.mk [7] true) [] =
      .error .closeOfClosedChannel ∧
    connmanager.CloseAllConnections
        (connmanager.ConnectionManager.mk [some 1] true) [] =
      .error .closeOfClosedChannel :=
  shutdown_rebroadcast_panics (conn_manager.ConnectionManager.mk [7] true) []
    (connmanager.ConnectionManager.mk [some 1] true) [] rfl rfl

/-- C2: the Idle session does NOT echo `"hello"` — the dispatch evaluates the
byte slice `string(message)[:9]`, which panics for any payload shorter than
9 bytes; only messages of length at least 9 that match neither slow-work token
are echoed. -/
theorem echo_hello_hits_slice_panic :
    handlers.classifyMessage "hello" = .error .sliceBoundsOutOfRange ∧
    handlers.classifyMessage "hello echo" = .ok (.echo "Echo: hello echo") :=
  ⟨rfl, rfl⟩

/-- C3: with C1, C2, C3 registered (modelled as identities 1, 2, 3) a
`CloseFirstNConnections 2` drain closes connections 1 and 2, but
`RemoveConnection` is called with the SNAPSHOT index against the already
shrunk slice, so the registry afterwards is `[2]` — the closed connection 2
is still registered and the untouched connection 3 was deregistered — not the
`[3]` the claim requires (only the count, 1, matches). -/
theorem drain_two_of_three_wrong_survivor :
    connmanager.CloseFirstNConnections 2
        (connmanager.ConnectionManager.mk [some 1, some 2, some 3] false) =
      .ok (connmanager.ConnectionManager.mk [some 2] false,
        [Event.closeMsgSent 1, Event.transportClosed 1,
         Event.closeMsgSent 2, Event.transportClosed 2]) ∧
    (connmanager.ConnectionManager.mk [some 2] false).connections ≠ [some 3] :=
  ⟨rfl, by decide⟩

/-- C4 counterexample: for the empty registry and `n = 0` (so
`n ≥ registry.count()`), `CloseFirstNConnections` leaves the `Shutdown`
channel open while `CloseAllConnections` closes it — the two operations are
not identical and their treatment of the ShutdownSignal is inconsistent. -/
theorem drainN_vs_drainAll_shutdown_differ :
    connmanager.GetConnectionsCount (connmanager.ConnectionManager.mk [] false) = 0 ∧
    connmanager.CloseFirstNConnections 0 (connmanager.ConnectionManager.mk [] false) =
      .ok (connmanager.ConnectionManager.mk [] false, []) ∧
    connmanager.CloseAllConnections (connmanager.ConnectionManager.mk [] false)
        [TickEvent.observe 0] =
      .ok (connmanager.ConnectionManager.mk [] true, [], .drained) ∧
    (connmanager.ConnectionManager.mk [] false).shutdownClosed ≠
      (connmanager.ConnectionManager.mk [] true).shutdownClosed :=
  ⟨rfl, rfl, rfl, by decide⟩

/-- C4 amended: whenever both calls return, `CloseFirstNConnections` leaves
the ShutdownSignal exactly as it was while `CloseAllConnections` always raises
it, so the two operations differ in their ShutdownSignal treatment. -/
theorem drainN_keeps_signal_drainAll_raises :
    ∀ (n : Nat) (cm : connmanager.ConnectionManager) (ticks : List TickEvent)
      (st1 : connmanager.ConnectionManager) (ev1 : List Event)
      (st2 : connmanager.ConnectionManager) (ev2 : List Event) (o : WaitOutcome),
      connmanager.CloseFirstNConnections n cm = .ok (st1, ev1) →
      connmanager.CloseAllConnections cm ticks = .ok (st2, ev2, o) →
      st1.shutdownClosed = cm.shutdownClosed ∧ st2.shutdownClosed = true := by
  intro n cm ticks st1 ev1 st2 ev2 o h1 h2
  refine ⟨closeConnLoop_shutdown _ 0 cm [] st1 ev1 h1, ?_⟩
  unfold connmanager.CloseAllConnections at h2
  split at h2
  · exact absurd h2 (by simp)
  · split at h2
    · exact absurd h2 (by simp)
    · injection h2 with h2
      simp only [Prod.mk.injEq] at h2
      rw [← h2.1]

/-- Witness for the amended C4 at the empty registry. -/
theorem drainN_keeps_signal_drainAll_raises_witness :
    (connmanager.ConnectionManager.mk [] false).shutdownClosed =
      (connmanager.ConnectionManager.mk [] false).shutdownClosed ∧
    (connmanager.ConnectionManager.mk [] true).shutdownClosed = true :=
  drainN_keeps_signal_drainAll_raises 0 (connmanager.ConnectionManager.mk [] false)
    [TickEvent.observe 0] (connmanager.ConnectionManager.mk [] false) []
    (connmanager.ConnectionManager.mk [] true) [] .drained rfl rfl

/-- C5: the slice-backed `AddConnection` appends unconditionally, so adding
the same connection twice leaves two entries with the same identity (counted
twice by `len`); the map-backed variant does keep the key set a set. -/
theorem duplicate_add_kept_twice :
    connmanager.AddConnection 7 (connmanager.AddConnection 7
        (connmanager.ConnectionManager.mk [] false)) =
      connmanager.ConnectionManager.mk [some 7, some 7] false ∧
    ([some (7 : Conn), some 7].count (some 7)) = 2 ∧
    conn_manager.AddConnection 7 (conn_manager.AddConnection 7
        conn_manager.NewConnectionManager) =
      conn_manager.ConnectionManager.mk [7] false :=
  ⟨rfl, by decide, by decide⟩

/-- C6 counterexample: on the empty registry, `GetFirstNConnections 1` returns
`[nil]` — one element, not `min 1 (count()) = 0` elements. -/
theorem snapshot_pads_with_nil :
    connmanager.GetFirstNConnections 1 (connmanager.ConnectionManager.mk [] false) =
      [none] ∧
    (connmanager.GetFirstNConnections 1
        (connmanager.ConnectionManager.mk [] false)).length ≠
      min 1 (connmanager.GetConnectionsCount (connmanager.ConnectionManager.mk [] false)) :=
  ⟨rfl, by decide⟩

/-- C6 amended: `GetFirstNConnections n` returns a slice of length exactly
`n`: the first `min n (count())` registry entries in insertion order, padded
with `n - min n (count())` nil entries. -/
theorem snapshot_exact_shape :
    ∀ (n : Nat) (cm : connmanager.ConnectionManager),
      connmanager.GetFirstNConnections n cm =
        cm.connections.take n ++
          List.replicate (n - min n cm.connections.length) none ∧
      (connmanager.GetFirstNConnections n cm).length = n := by
  intro n cm
  have hmain : connmanager.GetFirstNConnections n cm =
      cm.connections.take n ++
        List.replicate (n - min n cm.connections.length) none := by
    unfold connmanager.GetFirstNConnections connmanager.goCopy
    have htake : cm.connections.take (min n cm.connections.length) =
        cm.connections.take n := by
      rcases Nat.le_total n cm.connections.length with h | h
      · rw [Nat.min_eq_left h]
      · rw [Nat.min_eq_right h, List.take_length, List.take_of_length_le h]
    rw [htake, List.length_replicate, List.length_take]
    congr 1
    · rw [List.take_take, Nat.min_self]
    · rw [← Nat.min_assoc, Nat.min_self, List.drop_replicate]
  refine ⟨hmain, ?_⟩
  rw [hmain, List.length_append, List.length_take, List.length_replicate]
  omega

/-- C7: whenever `CloseAllConnections` (either variant) returns without a
timeout or a cancellation, it did so on a tick whose registry read was 0 — all
earlier ticks read nonzero counts and no cancellation intervened. -/
theorem drained_return_reads_empty :
    (∀ (cm : conn_manager.ConnectionManager) (ticks : List TickEvent)
       (st : conn_manager.ConnectionManager) (evs : List Event),
       conn_manager.CloseAllConnections cm ticks = .ok (st, evs, .drained) →
       returnsOnEmptyRead ticks) ∧
    (∀ (cm : connmanager.ConnectionManager) (ticks : List TickEvent)
       (st : connmanager.ConnectionManager) (evs : List Event),
       connmanager.CloseAllConnections cm ticks = .ok (st, evs, .drained) →
       returnsOnEmptyRead ticks) := by
  constructor
  · intro cm ticks st evs h
    unfold conn_manager.CloseAllConnections at h
    split at h
    · exact absurd h (by simp)
    · injection h with h
      simp only [Prod.mk.injEq] at h
      exact waitForEmpty_drained 50 ticks h.2.2
  · intro cm ticks st evs h
    unfold connmanager.CloseAllConnections at h
    split at h
    · exact absurd h (by simp)
    · split at h
      · exact absurd h (by simp)
      · injection h with h
        simp only [Prod.mk.injEq] at h
        exact waitForEmpty_drained 50 ticks h.2.2

/-- Witness for C7: concrete drains that return `drained` on reading count 0. -/
theorem drained_return_reads_empty_witness :
    returnsOnEmptyRead [TickEvent.observe 0] ∧
    returnsOnEmptyRead [TickEvent.observe 2, TickEvent.observe 0] :=
  ⟨drained_return_reads_empty.1 (conn_manager.ConnectionManager.mk [3] false)
      [TickEvent.observe 0] (conn_manager.ConnectionManager.mk [3] true)
      [Event.closeMsgSent 3, Event.transportClosed 3] rfl,
   drained_return_reads_empty.2 (connmanager.ConnectionManager.mk [some 5] false)
      [TickEvent.observe 2, TickEvent.observe 0]
      (connmanager.ConnectionManager.mk [] true)
      [Event.closeMsgSent 5, Event.transportClosed 5] rfl⟩

/-- C8: `CloseFirstNConnections` never touches the `Shutdown` channel — on any
normal return the signal is raised if and only if it was raised before. -/
theorem drainN_frames_shutdown_signal :
    ∀ (n : Nat) (cm st : connmanager.ConnectionManager) (evs : List Event),
      connmanager.CloseFirstNConnections n cm = .ok (st, evs) →
      st.shutdownClosed = cm.shutdownClosed :=
  fun _ cm st evs h => closeConnLoop_shutdown _ 0 cm [] st evs h

/-- Witness for C8 at a concrete one-connection drain. -/
theorem drainN_frames_shutdown_signal_witness :
    (connmanager.ConnectionManager.mk [] false).shutdownClosed =
      (connmanager.ConnectionManager.mk [some 4] false).shutdownClosed :=
  drainN_frames_shutdown_signal 1 (connmanager.ConnectionManager.mk [some 4] false)
    (connmanager.ConnectionManager.mk [] false)
    [Event.closeMsgSent 4, Event.transportClosed 4] rfl

/-- C9 counterexample: the line `"-1"` parses as an integer, yet no
acknowledgement is written — `make([]*websocket.Conn, -1)` inside the drain
panics, so the handler neither skips the line nor keeps serving. -/
theorem negative_count_parses_then_panics :
    tcp.Atoi "-1" = some (-1) ∧
    tcp.handleServiceLine "-1" connmanager.NewConnectionManager =
      .panicked .makeNegativeLen :=
  ⟨by decide, rfl⟩

/-- C9 amended: a line `strconv.Atoi` rejects is skipped with the peer
connection left open; a line parsing as integer `n` invokes the drain, and
when that drain returns normally the acknowledgement
`"Closing " + line + " WS connections"` (echoing the original line text) is
written. -/
theorem service_line_cases :
    ∀ (line : String) (cm : connmanager.ConnectionManager),
      (tcp.Atoi line = none → tcp.handleServiceLine line cm = .skipped) ∧
      (∀ (n : Int) (cmNext : connmanager.ConnectionManager) (evs : List Event),
        tcp.Atoi line = some n →
        tcp.CloseNConnectionsInt n cm = .ok (cmNext, evs) →
        tcp.handleServiceLine line cm =
          .acked ("Closing " ++ line ++ " WS connections") cmNext evs) := by
  intro line cm
  constructor
  · intro h
    unfold tcp.handleServiceLine
    rw [h]
  · intro n cmNext evs h1 h2
    unfold tcp.handleServiceLine
    rw [h1]
    simp [h2]

/-- Witness for the amended C9: a malformed line is skipped; the line `"2"`
against registry `[1, 2, 3]` is acknowledged. -/
theorem service_line_cases_witness :
    tcp.handleServiceLine "abc" connmanager.NewConnectionManager = .skipped ∧
    tcp.handleServiceLine "2"
        (connmanager.ConnectionManager.mk [some 1, some 2, some 3] false) =
      .acked ("Closing " ++ "2" ++ " WS connections")
        (connmanager.ConnectionManager.mk [some 2] false)
        [Event.closeMsgSent 1, Event.transportClosed 1,
         Event.closeMsgSent 2, Event.transportClosed 2] :=
  ⟨(service_line_cases "abc" connmanager.NewConnectionManager).1 rfl,
   (service_line_cases "2"
      (connmanager.ConnectionManager.mk [some 1, some 2, some 3] false)).2
      2 (connmanager.ConnectionManager.mk [some 2] false)
      [Event.closeMsgSent 1, Event.transportClosed 1,
       Event.closeMsgSent 2, Event.transportClosed 2] rfl rfl⟩

/-- C10: a newly constructed slice-backed manager is NOT empty —
`make([]*websocket.Conn, 100)` pre-fills the registry with 100 nil entries, so
`GetConnectionsCount` returns 100 and `GetFirstNConnections 1` returns a nil
entry rather than nothing. -/
theorem fresh_manager_not_empty :
    connmanager.GetConnectionsCount connmanager.NewConnectionManager = 100 ∧
    connmanager.GetFirstNConnections 1 connmanager.NewConnectionManager = [none] :=
  ⟨rfl, rfl⟩

end GoNodeWS
